import Mathlib

/-!
Verification of the PI-VI data pipeline against its design spec.

The development shallowly embeds the pure core of the pipeline:

* `src/economy.py` — `IMFEconomicDataCollector.prepare_csv_formats`: the
  wide pivot of long-format indicator observations
  (`pivot_table(index=["country","year"], columns="indicator",
  values="value", aggfunc="first")`, with the index sorted ascending, as
  pandas does by default).
* `src/main.py` — `GamePriceAnalyzer.get_price_history` (request-parameter
  construction and the per-entry date-filter loop),
  `save_price_history_to_csv` (row processing and CSV cell rendering), and
  the percent-change summary inside `run_analysis`.
* `src/api.py` — the `end_date` filter of `get_prices_by_game_id` and the
  country lookups of `get_economic_indicators_by_country` /
  `get_economic_indicators_by_country_and_year`.

Library calls that are not part of the repository are modelled explicitly:
`datetime.fromisoformat` is an abstract parameter
`parse : String → Option Int` (a timestamp parser into a totally ordered
time axis), the Python calls `str.replace("Z", "+00:00")` and
`str.upper()` are structural char-list functions, and numeric CSV cells
use the Lean `toString`, which agrees with the Python `str` on integers.
-/

/-! ## Economy: wide pivot of long-format indicator rows
    (src/economy.py, `prepare_csv_formats`) -/

/-- One cleaned long-format indicator observation, as produced by
`collect_data` after `prepare_csv_formats` has coerced `year` to an
integer and `value` to a number and dropped the failures
(economy.py lines 101–103). -/
structure Obs where
  country : String
  year : Int
  indicator : String
  value : Int
deriving DecidableEq

/-- The pivot key of a row: the (country, year, indicator) column triple
used by `pivot_table`. -/
def obsKey (r : Obs) : String × Int × String := (r.country, r.year, r.indicator)

/-- The value the wide pivot puts at (country `c`, year `y`, indicator
column `i`): `aggfunc="first"` keeps, for each key group, the value of the
first matching row in the original row order (economy.py lines 111–116). -/
def firstVal (rows : List Obs) (c : String) (y : Int) (i : String) : Option Int :=
  ((rows.filter fun r => obsKey r == (c, y, i)).head?).map Obs.value

/-- The indicator columns of the wide table: the distinct `indicator`
values, sorted ascending (pandas sorts the column labels). -/
def indicatorCols (rows : List Obs) : List String :=
  List.insertionSort (· ≤ ·) ((rows.map Obs.indicator).dedup)

/-- The years appearing for country `c`, sorted ascending: pandas sorts
the (country, year) index of the pivot, so within one country the rows
appear in ascending year order. -/
def yearsOf (rows : List Obs) (c : String) : List Int :=
  List.insertionSort (· ≤ ·)
    ((rows.filterMap fun r => if r.country = c then some r.year else none).dedup)

/-- One wide-format row, restricted to its indicator cells: for each
indicator column the first-seen value for (c, y), or `none` (a NaN cell)
if no observation carries that key. -/
def pivotRow (rows : List Obs) (c : String) (y : Int) : List (String × Option Int) :=
  (indicatorCols rows).map fun i => (i, firstVal rows c y i)

/-- The per-country slice of the wide pivot: the ascending list of years
of country `c`, each with its indicator cells. -/
def pivotCountry (rows : List Obs) (c : String) : List (Int × List (String × Option Int)) :=
  (yearsOf rows c).map fun y => (y, pivotRow rows c y)

/-! ### Helper lemmas about the pivot -/

theorem sortedDedup_perm_eq {α : Type} [DecidableEq α] [LinearOrder α] {l₁ l₂ : List α}
    (h : l₁.Perm l₂) :
    List.insertionSort (· ≤ ·) l₁.dedup = List.insertionSort (· ≤ ·) l₂.dedup := by
  refine List.eq_of_perm_of_sorted ?_ (List.sorted_insertionSort _ _)
    (List.sorted_insertionSort _ _)
  exact ((List.perm_insertionSort _ _).trans h.dedup).trans (List.perm_insertionSort _ _).symm

theorem filter_key_length_le_one (rows : List Obs) (k : String × Int × String)
    (h : (rows.map obsKey).Nodup) :
    (rows.filter fun r => obsKey r == k).length ≤ 1 := by
  induction rows with
  | nil => simp
  | cons r rest ih =>
    simp only [List.map_cons, List.nodup_cons] at h
    by_cases hk : obsKey r = k
    · have hrest : (rest.filter fun r' => obsKey r' == k) = [] := by
        refine List.filter_eq_nil_iff.mpr ?_
        intro a ha hc
        exact h.1 (by rw [hk, ← (by simpa using hc : obsKey a = k)]; exact List.mem_map_of_mem _ ha)
      simp [List.filter_cons, hk, hrest]
    · simpa [List.filter_cons, hk] using ih h.2

theorem perm_eq_of_length_le_one {α : Type} {l l' : List α} (h : l.Perm l')
    (hl : l.length ≤ 1) : l = l' := by
  match l, hl with
  | [], _ => exact (h.nil_eq).symm ▸ rfl
  | [a], _ => exact (List.perm_singleton.mp h.symm).symm

theorem firstVal_perm {rows rows' : List Obs} (hp : rows.Perm rows')
    (h : (rows.map obsKey).Nodup) (c : String) (y : Int) (i : String) :
    firstVal rows c y i = firstVal rows' c y i := by
  unfold firstVal
  rw [perm_eq_of_length_le_one (hp.filter _) (filter_key_length_le_one rows (c, y, i) h)]

theorem indicatorCols_perm {rows rows' : List Obs} (hp : rows.Perm rows') :
    indicatorCols rows = indicatorCols rows' := by
  unfold indicatorCols
  exact sortedDedup_perm_eq (hp.map Obs.indicator)

theorem yearsOf_perm {rows rows' : List Obs} (hp : rows.Perm rows') (c : String) :
    yearsOf rows c = yearsOf rows' c := by
  unfold yearsOf
  exact sortedDedup_perm_eq (hp.filterMap _)

theorem yearsOf_sorted_lt (rows : List Obs) (c : String) :
    List.Sorted (· < ·) (yearsOf rows c) := by
  have hs : List.Sorted (· ≤ ·) (yearsOf rows c) := List.sorted_insertionSort _ _
  have hn : (yearsOf rows c).Nodup :=
    ((List.perm_insertionSort _ _).nodup_iff).mpr (List.nodup_dedup _)
  exact hs.lt_of_le hn

/-! ### C1 -/

/-- C1: when several long-format rows share the same (country, year,
indicator) key, the pivoted wide-format value for that key is the value of
the first-occurring row; later duplicates are discarded, never averaged or
summed (`aggfunc="first"`, economy.py lines 111–116). -/
theorem pivot_first_occurrence_wins (pre post : List Obs) (r : Obs)
    (h : ∀ r' ∈ pre, obsKey r' ≠ obsKey r) :
    firstVal (pre ++ r :: post) r.country r.year r.indicator = some r.value := by
  unfold firstVal
  have h1 : pre.filter (fun x => obsKey x == (r.country, r.year, r.indicator)) = [] := by
    refine List.filter_eq_nil_iff.mpr ?_
    intro a ha hc
    exact h a ha (by simpa [obsKey] using hc)
  rw [List.filter_append, h1]
  simp [obsKey]

/-- Witness for C1, the instance named by the spec: on rows
[(BRA, 2020, NGDPDPC, 100), (BRA, 2020, NGDPDPC, 999)] the pivoted value
for BRA/2020/NGDPDPC is 100. -/
theorem pivot_first_occurrence_wins_witness :
    firstVal [⟨"BRA", 2020, "NGDPDPC", 100⟩, ⟨"BRA", 2020, "NGDPDPC", 999⟩]
      "BRA" 2020 "NGDPDPC" = some 100 := by
  simpa using
    pivot_first_occurrence_wins [] [⟨"BRA", 2020, "NGDPDPC", 999⟩]
      ⟨"BRA", 2020, "NGDPDPC", 100⟩ (by simp)

/-! ### C2 -/

/-- C2 is false as stated: with duplicate keys, first-occurrence-wins is
order-sensitive, so permuting the input rows changes the pivoted value.
Swapping the two BRA/2020/NGDPDPC rows changes the per-country pivot. -/
theorem pivot_perm_counterexample :
    (([⟨"BRA", 2020, "NGDPDPC", 999⟩, ⟨"BRA", 2020, "NGDPDPC", 100⟩] : List Obs).Perm
      [⟨"BRA", 2020, "NGDPDPC", 100⟩, ⟨"BRA", 2020, "NGDPDPC", 999⟩])
    ∧ pivotCountry [⟨"BRA", 2020, "NGDPDPC", 999⟩, ⟨"BRA", 2020, "NGDPDPC", 100⟩] "BRA"
      ≠ pivotCountry [⟨"BRA", 2020, "NGDPDPC", 100⟩, ⟨"BRA", 2020, "NGDPDPC", 999⟩] "BRA" :=
  ⟨List.Perm.swap _ _ _, by decide⟩

/-- C2 (amended): permuting the input rows never changes the per-country
pivoted output provided the rows carry no duplicate (country, year,
indicator) key; and unconditionally, within each country the years of the
pivoted output are strictly ascending. -/
theorem pivot_perm_invariant :
    (∀ (rows rows' : List Obs), rows.Perm rows' → (rows.map obsKey).Nodup →
      ∀ c, pivotCountry rows c = pivotCountry rows' c)
    ∧ (∀ (rows : List Obs) (c : String),
        List.Sorted (· < ·) ((pivotCountry rows c).map Prod.fst)) := by
  constructor
  · intro rows rows' hp hnd c
    unfold pivotCountry pivotRow
    rw [yearsOf_perm hp, indicatorCols_perm hp]
    refine List.map_congr_left fun y _ => ?_
    refine congrArg _ (List.map_congr_left fun i _ => ?_)
    rw [firstVal_perm hp hnd]
  · intro rows c
    have : (pivotCountry rows c).map Prod.fst = yearsOf rows c := by
      simp [pivotCountry, List.map_map, Function.comp_def]
    rw [this]
    exact yearsOf_sorted_lt rows c

/-- Witness for C2 (amended): a duplicate-free two-row input, permuted,
pivots identically, and its years come out strictly ascending. -/
theorem pivot_perm_invariant_witness :
    pivotCountry [⟨"BRA", 2020, "NGDPDPC", 100⟩, ⟨"BRA", 2021, "NGDPDPC", 200⟩] "BRA"
      = pivotCountry [⟨"BRA", 2021, "NGDPDPC", 200⟩, ⟨"BRA", 2020, "NGDPDPC", 100⟩] "BRA"
    ∧ List.Sorted (· < ·)
        ((pivotCountry [⟨"BRA", 2020, "NGDPDPC", 100⟩, ⟨"BRA", 2021, "NGDPDPC", 200⟩] "BRA").map
          Prod.fst) :=
  ⟨pivot_perm_invariant.1 _ _ (List.Perm.swap _ _ _) (by decide) "BRA",
   pivot_perm_invariant.2 _ "BRA"⟩

/-! ## Price history: fetch-and-filter (src/main.py, `get_price_history`) -/

/-- One raw deal entry of the upstream list payload, with exactly the
nested fields `get_price_history` and `save_price_history_to_csv` read:
`timestamp`, `shop.id`, `shop.name`, `deal.price.{amount,currency}`,
`deal.regular.{amount,currency}`, `deal.cut`. A `none` field is a missing
JSON key. Amounts are modelled as integers. -/
structure Entry where
  timestamp : Option String
  shopId : Option Int
  shopName : Option String
  priceAmount : Option Int
  priceCurrency : Option String
  regularAmount : Option Int
  regularCurrency : Option String
  cut : Option Int
deriving DecidableEq

/-- The Python call `s.replace("Z", "+00:00")` on the char list: the pattern is
the single character `Z`, so substring replacement is char replacement. -/
def replaceZ : List Char → List Char
  | [] => []
  | c :: cs =>
    if c = 'Z' then '+' :: '0' :: '0' :: ':' :: '0' :: '0' :: replaceZ cs
    else c :: replaceZ cs

/-- The `timestamp.replace("Z", "+00:00")` preprocessing applied to every
date string before `datetime.fromisoformat` (main.py lines 70–72, 76–78, 84). -/
def zfix (s : String) : String := ⟨replaceZ s.data⟩

/-- The end-date check of the per-entry loop (main.py lines 82–86): with
no (or empty, hence falsy) `end_date` the entry passes; with an
unparseable `end_date` the `ValueError` is caught and the entry dropped;
otherwise entries strictly after the bound are dropped. -/
def endOk (parse : String → Option Int) (edOpt : Option String) (d : Int) : Bool :=
  if edOpt.getD "" = "" then true
  else
    match parse (zfix (edOpt.getD "")) with
    | none => false
    | some en => decide (d ≤ en)

/-- One iteration of the filter loop of `get_price_history` (main.py lines
64–91): the entry is kept iff its timestamp is present and truthy, parses,
and passes the start- and end-date checks; any parse failure inside the
`try` drops the entry (`continue`). -/
def keepEntry (parse : String → Option Int) (sdOpt edOpt : Option String) (e : Entry) : Bool :=
  if e.timestamp.getD "" = "" then false
  else
    match parse (zfix (e.timestamp.getD "")) with
    | none => false
    | some d =>
      if sdOpt.getD "" = "" then endOk parse edOpt d
      else
        match parse (zfix (sdOpt.getD "")) with
        | none => false
        | some s => if d < s then false else endOk parse edOpt d

/-- The date-filter pass over the raw list (main.py lines 63–94),
preserving the original relative order. -/
def filterEntries (parse : String → Option Int) (sdOpt edOpt : Option String)
    (data : List Entry) : List Entry :=
  data.filter (keepEntry parse sdOpt edOpt)

/-- The shapes a decoded JSON payload can take at the top level: a list of
deal entries, a dict, or anything else. -/
inductive RawPayload
  | plist (entries : List Entry)
  | pdict
  | pother
deriving DecidableEq

/-- The body of `get_price_history` on a 200 response (main.py lines
45–94): a non-list payload is logged ("Formato de resposta inesperado")
and an empty list returned; a list payload goes through the date filter.
The `shops` argument is accepted but never used for local filtering (it
only feeds the request parameters, see `buildParams`). -/
def getPriceHistoryOn200 (parse : String → Option Int) (sdOpt edOpt : Option String)
    (shops : Option (List Int)) (payload : RawPayload) : List Entry :=
  match payload with
  | RawPayload.plist es => filterEntries parse sdOpt edOpt es
  | _ => []

/-- The request parameters built by `get_price_history` (main.py lines
28–39): `key` and `id` always; `since` when `start_date` is truthy;
`shops` as the comma-joined ids when the list is truthy; `country` when
truthy. -/
def buildParams (apiKey gameId : String) (sdOpt : Option String)
    (shops : Option (List Int)) (country : Option String) : List (String × String) :=
  let ps := [("key", apiKey), ("id", gameId)]
  let ps := if sdOpt.getD "" = "" then ps else ps ++ [("since", sdOpt.getD "")]
  let ps :=
    match shops with
    | some l => if l = [] then ps else ps ++ [("shops", String.intercalate "," (l.map toString))]
    | none => ps
  match country with
  | some c => if c = "" then ps else ps ++ [("country", c)]
  | none => ps

/-- A concrete timestamp parser on a three-instant time axis, used only to
instantiate witnesses. -/
def testParse (s : String) : Option Int :=
  if s = "2020-01-01T00:00:00+00:00" then some 100
  else if s = "2020-01-02T00:00:00+00:00" then some 200
  else if s = "2020-01-03T00:00:00+00:00" then some 300
  else none

/-- A sample deal entry timestamped at the first test instant. -/
def e1 : Entry :=
  { timestamp := some "2020-01-01T00:00:00Z", shopId := some 61, shopName := some "Steam",
    priceAmount := some 10, priceCurrency := some "USD", regularAmount := some 20,
    regularCurrency := some "USD", cut := some 50 }

/-- A sample deal entry from an unrequested shop (id 99), timestamped at
the second test instant. -/
def e99 : Entry :=
  { timestamp := some "2020-01-02T00:00:00Z", shopId := some 99, shopName := some "Other",
    priceAmount := some 5, priceCurrency := some "USD", regularAmount := some 20,
    regularCurrency := some "USD", cut := some 75 }

/-! ### C3 -/

theorem keepEntry_false_of_bad_timestamp (parse : String → Option Int)
    (sdOpt edOpt : Option String) (e : Entry)
    (hbad : e.timestamp.getD "" = "" ∨ parse (zfix (e.timestamp.getD "")) = none) :
    keepEntry parse sdOpt edOpt e = false := by
  unfold keepEntry
  by_cases hts : e.timestamp.getD "" = ""
  · simp [hts]
  · rcases hbad with h | h
    · exact absurd h hts
    · simp [hts, h]

/-- C3: every record that survives the date-filter loop of
`get_price_history` has a present, truthy (non-empty) timestamp that the
date parser accepts; an entry whose timestamp is missing or fails parsing
is dropped by `continue` — the rest of the output is exactly as if the bad
entry were absent, and no error is raised (main.py lines 63–94). -/
theorem filtered_timestamps_parseable :
    (∀ (parse : String → Option Int) (sdOpt edOpt : Option String) (data : List Entry)
        (e : Entry), e ∈ filterEntries parse sdOpt edOpt data →
        ∃ ts, e.timestamp = some ts ∧ ts ≠ "" ∧ (parse (zfix ts)).isSome)
    ∧ (∀ (parse : String → Option Int) (sdOpt edOpt : Option String)
        (pre post : List Entry) (bad : Entry),
        bad.timestamp.getD "" = "" ∨ parse (zfix (bad.timestamp.getD "")) = none →
        filterEntries parse sdOpt edOpt (pre ++ bad :: post) =
          filterEntries parse sdOpt edOpt (pre ++ post)) := by
  constructor
  · intro parse sdOpt edOpt data e he
    have h := (List.mem_filter.mp he).2
    by_cases hts : e.timestamp.getD "" = ""
    · rw [keepEntry_false_of_bad_timestamp parse sdOpt edOpt e (Or.inl hts)] at h
      exact absurd h (by simp)
    · cases hpt : parse (zfix (e.timestamp.getD "")) with
      | none =>
        rw [keepEntry_false_of_bad_timestamp parse sdOpt edOpt e (Or.inr hpt)] at h
        exact absurd h (by simp)
      | some d =>
        refine ⟨e.timestamp.getD "", ?_, hts, by simp [hpt]⟩
        cases het : e.timestamp with
        | none => rw [het] at hts; exact absurd rfl hts
        | some t => simp [het]
  · intro parse sdOpt edOpt pre post bad hbad
    unfold filterEntries
    rw [List.filter_append, List.filter_append, List.filter_cons,
      keepEntry_false_of_bad_timestamp parse sdOpt edOpt bad hbad]
    simp

/-- Witness for C3: the concrete entry `e1` survives the unbounded filter,
and the theorem certifies its timestamp is present, non-empty and
parseable; a timestamp-less entry is dropped silently. -/
theorem filtered_timestamps_parseable_witness :
    (∃ ts, e1.timestamp = some ts ∧ ts ≠ "" ∧ (testParse (zfix ts)).isSome)
    ∧ filterEntries testParse none none
        ([] ++ { e1 with timestamp := none } :: [e1]) =
        filterEntries testParse none none ([] ++ [e1]) :=
  ⟨filtered_timestamps_parseable.1 testParse none none [e1] e1 (by decide),
   filtered_timestamps_parseable.2 testParse none none [] [e1]
     { e1 with timestamp := none } (Or.inl (by decide))⟩

/-! ### C4 -/

/-- C4: with two well-formed bounds, the date filter keeps exactly the
records whose parsed timestamp t satisfies start ≤ t ≤ end — both bounds
inclusive — and whenever start > end the result is empty (and no error is
raised: the filter is a total function into plain lists). Records whose
timestamps are missing or unparseable are never kept (main.py lines
63–94). -/
theorem date_filter_inclusive (parse : String → Option Int) (s0 e0 : String) (S E : Int)
    (data : List Entry) (hs0 : s0 ≠ "") (he0 : e0 ≠ "")
    (hS : parse (zfix s0) = some S) (hE : parse (zfix e0) = some E) :
    (∀ e : Entry, e ∈ filterEntries parse (some s0) (some e0) data ↔
      e ∈ data ∧ ∃ ts d, e.timestamp = some ts ∧ ts ≠ "" ∧ parse (zfix ts) = some d ∧
        S ≤ d ∧ d ≤ E)
    ∧ (E < S → filterEntries parse (some s0) (some e0) data = []) := by
  have hkeep : ∀ e : Entry, keepEntry parse (some s0) (some e0) e = true ↔
      ∃ ts d, e.timestamp = some ts ∧ ts ≠ "" ∧ parse (zfix ts) = some d ∧
        S ≤ d ∧ d ≤ E := by
    intro e
    unfold keepEntry endOk
    cases het : e.timestamp with
    | none => simp [het]
    | some t =>
      by_cases ht : t = ""
      · simp [het, ht]
      · cases hpt : parse (zfix t) with
        | none => simp [het, ht, hpt]
        | some d =>
          simp only [het, Option.getD_some, ht, if_false, hpt, hs0, he0, hS, hE]
          constructor
          · intro h
            refine ⟨t, d, rfl, ht, hpt, ?_⟩
            by_cases hds : d < S
            · simp [hds] at h
            · simp [hds] at h
              omega
          · rintro ⟨ts, d', hts, -, hpd', hSd, hdE⟩
            obtain rfl : t = ts := by injection hts
            obtain rfl : d = d' := by rw [hpt] at hpd'; injection hpd'
            have hds : ¬ d < S := by omega
            simp [hds, hdE]
  constructor
  · intro e
    rw [filterEntries, List.mem_filter, hkeep]
  · intro hES
    refine List.filter_eq_nil_iff.mpr ?_
    intro e _ hk
    obtain ⟨ts, d, -, -, -, hSd, hdE⟩ := (hkeep e).mp hk
    omega

/-- Witness for C4: entries lying exactly on the start bound (`e1`) and
exactly on the end bound (`e99`) are both retained, and with the bounds
swapped (start > end) the result is empty. -/
theorem date_filter_inclusive_witness :
    (e1 ∈ filterEntries testParse (some "2020-01-01T00:00:00Z")
        (some "2020-01-02T00:00:00Z") [e1, e99]
      ∧ e99 ∈ filterEntries testParse (some "2020-01-01T00:00:00Z")
        (some "2020-01-02T00:00:00Z") [e1, e99])
    ∧ filterEntries testParse (some "2020-01-02T00:00:00Z")
        (some "2020-01-01T00:00:00Z") [e1, e99] = [] :=
  ⟨⟨((date_filter_inclusive testParse "2020-01-01T00:00:00Z" "2020-01-02T00:00:00Z"
        100 200 [e1, e99] (by decide) (by decide) (by decide) (by decide)).1 e1).mpr
      ⟨by decide, "2020-01-01T00:00:00Z", 100, by decide, by decide, by decide,
        by decide, by decide⟩,
    ((date_filter_inclusive testParse "2020-01-01T00:00:00Z" "2020-01-02T00:00:00Z"
        100 200 [e1, e99] (by decide) (by decide) (by decide) (by decide)).1 e99).mpr
      ⟨by decide, "2020-01-02T00:00:00Z", 200, by decide, by decide, by decide,
        by decide, by decide⟩⟩,
   (date_filter_inclusive testParse "2020-01-02T00:00:00Z" "2020-01-01T00:00:00Z"
        200 100 [e1, e99] (by decide) (by decide) (by decide) (by decide)).2 (by decide)⟩

/-! ## API serving layer (src/api.py) -/

/-- The error outcomes the API surfaces: HTTP 400 for a malformed filter
argument, HTTP 404 for a missing resource, and an uncaught `KeyError`
(an entry without a `timestamp` key inside the comprehension of
`get_prices_by_game_id`, which the `except (ValueError, TypeError)`
handler does not catch). -/
inductive ApiError
  | invalidFilterArgument
  | notFound
  | keyError
deriving DecidableEq

/-- The list comprehension of `get_prices_by_game_id` (api.py lines
126–131): entries are visited in order; a missing `timestamp` key raises
`KeyError`; an unparseable entry timestamp raises `ValueError`, which the
surrounding handler reports as the same 400 as a bad `end_date`. -/
def apiApplyEndFilter (parse : String → Option Int) (en : Int) :
    List Entry → Except ApiError (List Entry)
  | [] => Except.ok []
  | e :: rest =>
    match e.timestamp with
    | none => Except.error ApiError.keyError
    | some ts =>
      match parse (zfix ts) with
      | none => Except.error ApiError.invalidFilterArgument
      | some d =>
        match apiApplyEndFilter parse en rest with
        | Except.error err => Except.error err
        | Except.ok l => Except.ok (if d ≤ en then e :: l else l)

/-- The `end_date` handling of `get_prices_by_game_id` (api.py lines
122–135): a falsy `end_date` is skipped; a malformed one raises
`HTTPException 400 "Invalid end_date format"` — modelled as
`ApiError.invalidFilterArgument`; otherwise the comprehension filters
entries whose timestamp is at most the bound. -/
def apiFilterByEnd (parse : String → Option Int) (edOpt : Option String)
    (data : List Entry) : Except ApiError (List Entry) :=
  if edOpt.getD "" = "" then Except.ok data
  else
    match parse (zfix (edOpt.getD "")) with
    | none => Except.error ApiError.invalidFilterArgument
    | some en => apiApplyEndFilter parse en data

/-! ### C5 -/

/-- C5 is false as stated: in `get_price_history` (main.py lines 63–94) a
malformed `start_date` bound is NOT reported — the `ValueError` raised
while parsing it is caught by the same per-entry handler that absorbs bad
entries, so every record (here `e1`, which an unbounded call keeps) is
silently dropped and the ordinary empty list is returned, with no error
channel at all. -/
theorem malformed_bound_swallowed_counterexample :
    filterEntries testParse (some "not-a-date") none [e1] = []
    ∧ filterEntries testParse none none [e1] = [e1] := by
  constructor <;> decide

/-- C5 (amended): only the API path reports a malformed bound: in
`get_prices_by_game_id` a truthy `end_date` that fails parsing is
reported to the caller as HTTP 400 (InvalidFilterArgument) before any
entry is examined; in the batch path `get_price_history` a truthy,
unparseable `start_date` — and likewise a truthy, unparseable `end_date` —
is swallowed per entry and the filter returns the ordinary empty list
instead of an error. -/
theorem malformed_bound_reporting (parse : String → Option Int) :
    (∀ (ed : String) (data : List Entry), ed ≠ "" → parse (zfix ed) = none →
      apiFilterByEnd parse (some ed) data = Except.error ApiError.invalidFilterArgument)
    ∧ (∀ (sd : String) (edOpt : Option String) (data : List Entry),
        sd ≠ "" → parse (zfix sd) = none →
        filterEntries parse (some sd) edOpt data = [])
    ∧ (∀ (sdOpt : Option String) (ed : String) (data : List Entry),
        ed ≠ "" → parse (zfix ed) = none →
        filterEntries parse sdOpt (some ed) data = []) := by
  refine ⟨?_, ?_, ?_⟩
  · intro ed data hed hparse
    unfold apiFilterByEnd
    simp [hed, hparse]
  · intro sd edOpt data hsd hparse
    refine List.filter_eq_nil_iff.mpr ?_
    intro e _ hk
    unfold keepEntry at hk
    by_cases hts : e.timestamp.getD "" = ""
    · simp [hts] at hk
    · cases hpt : parse (zfix (e.timestamp.getD "")) with
      | none => simp [hts, hpt] at hk
      | some d => simp [hts, hpt, hsd, hparse] at hk
  · intro sdOpt ed data hed hparse
    refine List.filter_eq_nil_iff.mpr ?_
    intro e _ hk
    unfold keepEntry endOk at hk
    by_cases hts : e.timestamp.getD "" = ""
    · simp [hts] at hk
    · cases hpt : parse (zfix (e.timestamp.getD "")) with
      | none => simp [hts, hpt] at hk
      | some d =>
        by_cases hsd : sdOpt.getD "" = ""
        · simp [hts, hpt, hsd, hed, hparse] at hk
        · cases hps : parse (zfix (sdOpt.getD "")) with
          | none => simp [hts, hpt, hsd, hps] at hk
          | some s => simp [hts, hpt, hsd, hps, hed, hparse] at hk

/-- Witness for C5 (amended): with a concrete malformed bound, the API
filter reports InvalidFilterArgument while the batch filter silently
returns the empty list, for a malformed start bound and for a malformed
end bound alike. -/
theorem malformed_bound_reporting_witness :
    apiFilterByEnd testParse (some "not-a-date") [e1] =
      Except.error ApiError.invalidFilterArgument
    ∧ filterEntries testParse (some "not-a-date") none [e1] = []
    ∧ filterEntries testParse none (some "not-a-date") [e1] = [] :=
  ⟨(malformed_bound_reporting testParse).1 "not-a-date" [e1] (by decide) (by decide),
   (malformed_bound_reporting testParse).2.1 "not-a-date" none [e1] (by decide) (by decide),
   (malformed_bound_reporting testParse).2.2 none "not-a-date" [e1] (by decide) (by decide)⟩

/-! ### C6 -/

/-- C6 is false as stated: a payload whose top-level shape is a dict (or
anything else that is not a list) is absorbed by `get_price_history`
(main.py lines 47–49): after printing "Formato de resposta inesperado" it
returns `[]` — the very same ordinary empty result an empty list payload
produces — and its `list` return type has no error channel to surface an
adaptation failure. -/
theorem unrecognized_payload_counterexample :
    getPriceHistoryOn200 testParse none none none RawPayload.pdict = []
    ∧ getPriceHistoryOn200 testParse none none none RawPayload.pother = []
    ∧ getPriceHistoryOn200 testParse none none none (RawPayload.plist []) = [] := by
  refine ⟨rfl, rfl, rfl⟩

/-- C6 (amended): every payload that is not a list — dicts included — is
logged and absorbed into the ordinary empty list; no adaptation error
reaches the caller. -/
theorem unrecognized_payload_absorbed (parse : String → Option Int)
    (sdOpt edOpt : Option String) (shops : Option (List Int)) (payload : RawPayload)
    (h : ∀ es : List Entry, payload ≠ RawPayload.plist es) :
    getPriceHistoryOn200 parse sdOpt edOpt shops payload = [] := by
  cases payload with
  | plist es => exact absurd rfl (h es)
  | pdict => rfl
  | pother => rfl

/-- Witness for C6 (amended): the dict-shaped payload is absorbed. -/
theorem unrecognized_payload_absorbed_witness :
    getPriceHistoryOn200 testParse none none none RawPayload.pdict = [] :=
  unrecognized_payload_absorbed testParse none none none RawPayload.pdict
    (fun es h => RawPayload.noConfusion h)

/-! ### C7 -/

/-- C7 is false as stated: `get_price_history` performs no local shop
membership test (main.py lines 33–39 only serialize `shops` into the
request parameters; the filter loop of lines 62–94 never reads `shop.id`,
and main.py line 224 even notes the parameter is kept without manual
filtering) — an entry of shop 99 survives a call that requested only
shop 61. -/
theorem shop_filter_counterexample :
    e99 ∈ getPriceHistoryOn200 testParse none none (some [61]) (RawPayload.plist [e99])
    ∧ e99.shopId = some 99
    ∧ (99 : Int) ∉ [(61 : Int)] := by
  refine ⟨by decide, rfl, by decide⟩

/-- C7 (amended): the `shops` argument only feeds the upstream request
parameters — it is serialized comma-joined into the `shops` query
parameter — and the locally produced result is entirely independent of it,
so no shop membership test is applied to the records. -/
theorem shops_only_forwarded_upstream :
    (∀ (parse : String → Option Int) (sdOpt edOpt : Option String)
        (sh sh' : Option (List Int)) (payload : RawPayload),
        getPriceHistoryOn200 parse sdOpt edOpt sh payload =
          getPriceHistoryOn200 parse sdOpt edOpt sh' payload)
    ∧ (∀ (apiKey gameId : String) (sdOpt : Option String) (l : List Int)
        (country : Option String), l ≠ [] →
        ("shops", String.intercalate "," (l.map toString)) ∈
          buildParams apiKey gameId sdOpt (some l) country) := by
  constructor
  · intro parse sdOpt edOpt sh sh' payload
    cases payload <;> rfl
  · intro apiKey gameId sdOpt l country hl
    simp only [buildParams]
    cases country <;> split_ifs <;> simp_all
    all_goals split_ifs <;> simp

/-- Witness for C7 (amended): requesting shops [61] versus no shops leaves
the local output unchanged, and [61] is serialized into the parameters. -/
theorem shops_only_forwarded_upstream_witness :
    getPriceHistoryOn200 testParse none none (some [61]) (RawPayload.plist [e99]) =
      getPriceHistoryOn200 testParse none none none (RawPayload.plist [e99])
    ∧ ("shops", "61") ∈ buildParams "k" "g" none (some [61]) none :=
  ⟨shops_only_forwarded_upstream.1 testParse none none (some [61]) none
      (RawPayload.plist [e99]),
   by simpa using shops_only_forwarded_upstream.2 "k" "g" none [61] none (by decide)⟩

/-! ## CSV export (src/main.py, `save_price_history_to_csv`) -/

/-- One processed CSV row (main.py lines 114–125): string fields default
to `""` via `.get(..., "")`, numeric deal fields stay `None` when missing
(`.get("amount")`), and `cut` defaults to 0. -/
structure ProcessedRow where
  timestamp : String
  shop_id : Option Int
  shop_name : String
  price_amount : Option Int
  price_currency : Option String
  regular_amount : Option Int
  regular_currency : Option String
  cut : Int
deriving DecidableEq

/-- The row-processing step of `save_price_history_to_csv` (main.py lines
109–125) applied to one raw entry. -/
def processEntry (e : Entry) : ProcessedRow :=
  { timestamp := e.timestamp.getD ""
    shop_id := e.shopId
    shop_name := e.shopName.getD ""
    price_amount := e.priceAmount
    price_currency := e.priceCurrency
    regular_amount := e.regularAmount
    regular_currency := e.regularCurrency
    cut := e.cut.getD 0 }

/-- The text `csv.DictWriter` puts in a cell holding an optional number:
`None` is written as the empty string, a number via `str`. -/
def csvCellOfOptInt : Option Int → String
  | none => ""
  | some n => toString n

/-- The text `csv.DictWriter` puts in a cell holding an optional string:
`None` is written as the empty string. -/
def csvCellOfOptStr : Option String → String
  | none => ""
  | some s => s

/-- One CSV data line, cells in the fixed `fieldnames` order of
`save_price_history_to_csv` (main.py lines 132–137). -/
def csvRow (r : ProcessedRow) : List String :=
  [r.timestamp, csvCellOfOptInt r.shop_id, r.shop_name, csvCellOfOptInt r.price_amount,
   csvCellOfOptStr r.price_currency, csvCellOfOptInt r.regular_amount,
   csvCellOfOptStr r.regular_currency, toString r.cut]

/-- The CSV header line written by `writer.writeheader()`. -/
def csvHeader : List String :=
  ["timestamp", "shop_id", "shop_name", "price_amount", "price_currency",
   "regular_amount", "regular_currency", "cut"]

/-- The full CSV file produced by `save_price_history_to_csv`: the header
line followed by one line per processed row. -/
def savePriceHistoryRows (rows : List ProcessedRow) : List (List String) :=
  csvHeader :: rows.map csvRow

/-! ### A decimal parser and the `str`/parse round trip -/

/-- The numeric value of a decimal digit character. -/
def digitVal (c : Char) : Nat := c.toNat - 48

/-- The value of a decimal digit string, most significant digit first. -/
def decDigitsVal (cs : List Char) : Nat :=
  cs.foldl (fun a c => a * 10 + digitVal c) 0

/-- Modelled from the spec: re-parsing a numeric CSV cell (the repository
writes the CSV via `csv.DictWriter` but re-reads it only through
`pd.read_csv` in graph.py, so the reader is modelled): a non-empty
all-digit cell is a natural number. -/
def decToNat? (cs : List Char) : Option Nat :=
  if cs ≠ [] ∧ cs.all (·.isDigit) then some (decDigitsVal cs) else none

/-- Modelled from the spec: an optional leading minus sign makes the cell
a (negative) integer. -/
def decToInt? : List Char → Option Int
  | [] => none
  | c :: cs =>
    if c = '-' then (decToNat? cs).map (fun n => -(n : Int))
    else (decToNat? (c :: cs)).map (fun n => (n : Int))

/-- Modelled from the spec: an empty cell is an absent numeric field
(`pd.read_csv` reads it as NaN), anything else must parse as an integer. -/
def parseOptInt (s : String) : Option Int := decToInt? s.data

/-- Modelled from the spec: an empty cell is an absent string field. -/
def parseOptStr (s : String) : Option String := if s = "" then none else some s

/-- Modelled from the spec: re-parsing one CSV data line of the
price-history file into a processed row; the `cut` column is required
(the writer always emits it). -/
def parseCsvRow : List String → Option ProcessedRow
  | [ts, sid, sname, pa, pc, ra, rc, cutCell] =>
    match decToInt? cutCell.data with
    | none => none
    | some c =>
      some { timestamp := ts, shop_id := parseOptInt sid, shop_name := sname,
             price_amount := parseOptInt pa, price_currency := parseOptStr pc,
             regular_amount := parseOptInt ra, regular_currency := parseOptStr rc,
             cut := c }
  | _ => none

theorem digitChar_spec : ∀ m, m < 10 →
    (Nat.digitChar m).isDigit = true ∧ digitVal (Nat.digitChar m) = m := by decide

theorem toDigitsCore_fuel : ∀ (n fuel fuel' : Nat) (ds : List Char),
    n < fuel → n < fuel' →
    Nat.toDigitsCore 10 fuel n ds = Nat.toDigitsCore 10 fuel' n ds := by
  intro n
  induction n using Nat.strong_induction_on with
  | _ n ih =>
    intro fuel fuel' ds hf hf'
    match fuel, fuel' with
    | f + 1, f' + 1 =>
      simp only [Nat.toDigitsCore]
      by_cases h : n / 10 = 0
      · simp [h]
      · simp only [h, if_false]
        have hn0 : 0 < n := by omega
        have hdiv : n / 10 < n := Nat.div_lt_self hn0 (by norm_num)
        exact ih (n / 10) hdiv f f' _ (by omega) (by omega)

theorem toDigitsCore_append : ∀ (fuel n : Nat) (ds : List Char),
    Nat.toDigitsCore 10 fuel n ds = Nat.toDigitsCore 10 fuel n [] ++ ds := by
  intro fuel
  induction fuel with
  | zero => simp [Nat.toDigitsCore]
  | succ f ih =>
    intro n ds
    simp only [Nat.toDigitsCore]
    by_cases h : n / 10 = 0
    · simp [h]
    · simp only [h, if_false]
      rw [ih (n / 10) (Nat.digitChar (n % 10) :: ds), ih (n / 10) [Nat.digitChar (n % 10)]]
      simp

theorem toDigits_lt_10 {n : Nat} (h : n < 10) :
    Nat.toDigits 10 n = [Nat.digitChar n] := by
  unfold Nat.toDigits
  simp only [Nat.toDigitsCore]
  have h10 : n / 10 = 0 := Nat.div_eq_of_lt h
  simp [h10, Nat.mod_eq_of_lt h]

theorem toDigits_ge_10 {n : Nat} (h : 10 ≤ n) :
    Nat.toDigits 10 n = Nat.toDigits 10 (n / 10) ++ [Nat.digitChar (n % 10)] := by
  conv_lhs => unfold Nat.toDigits
  simp only [Nat.toDigitsCore]
  have h10 : n / 10 ≠ 0 := by omega
  simp only [h10, if_false]
  rw [toDigitsCore_append n (n / 10)]
  rw [toDigitsCore_fuel (n / 10) n (n / 10 + 1) [] (by omega) (by omega)]
  rfl

theorem toDigits_all_digits (n : Nat) :
    Nat.toDigits 10 n ≠ [] ∧ (Nat.toDigits 10 n).all (·.isDigit) = true := by
  induction n using Nat.strong_induction_on with
  | _ n ih =>
    by_cases h : n < 10
    · rw [toDigits_lt_10 h]
      exact ⟨by simp, by simpa using (digitChar_spec n h).1⟩
    · rw [toDigits_ge_10 (by omega)]
      have hdiv : n / 10 < n := by omega
      refine ⟨by simp, ?_⟩
      rw [List.all_append]
      simp [(ih _ hdiv).2, (digitChar_spec (n % 10) (by omega)).1]

theorem toDigits_val (n : Nat) : decDigitsVal (Nat.toDigits 10 n) = n := by
  induction n using Nat.strong_induction_on with
  | _ n ih =>
    by_cases h : n < 10
    · rw [toDigits_lt_10 h]
      simp [decDigitsVal, (digitChar_spec n h).2]
    · rw [toDigits_ge_10 (by omega)]
      unfold decDigitsVal
      rw [List.foldl_append]
      simp only [List.foldl_cons, List.foldl_nil]
      have hdiv : n / 10 < n := by omega
      rw [show List.foldl (fun a c => a * 10 + digitVal c) 0 (Nat.toDigits 10 (n / 10)) =
            n / 10 from ih _ hdiv]
      rw [(digitChar_spec (n % 10) (by omega)).2]
      omega

theorem decToNat_toDigits (n : Nat) : decToNat? (Nat.toDigits 10 n) = some n := by
  unfold decToNat?
  have h := toDigits_all_digits n
  rw [if_pos ⟨h.1, h.2⟩, toDigits_val]

theorem toDigits_no_minus (n : Nat) : ∀ c ∈ Nat.toDigits 10 n, c ≠ '-' := by
  intro c hc hcm
  have h := (toDigits_all_digits n).2
  rw [List.all_eq_true] at h
  have : c.isDigit = true := by simpa using h c hc
  rw [hcm] at this
  exact absurd this (by decide)

theorem repr_data (n : Nat) : (Nat.repr n).data = Nat.toDigits 10 n := rfl

theorem decToInt_repr_nat (m : Nat) : decToInt? (Nat.repr m).data = some (m : Int) := by
  rw [repr_data]
  cases hD : Nat.toDigits 10 m with
  | nil => exact absurd hD (toDigits_all_digits m).1
  | cons c cs =>
    simp only [decToInt?]
    have hcm : c ≠ '-' := toDigits_no_minus m c (by rw [hD]; exact List.mem_cons_self c cs)
    rw [if_neg hcm, ← hD, decToNat_toDigits]
    rfl

theorem parse_toString_int (n : Int) : decToInt? (toString n).data = some n := by
  cases n with
  | ofNat m => exact decToInt_repr_nat m
  | negSucc m =>
    show decToInt? (("-" ++ Nat.repr (m + 1)).data) = some (Int.negSucc m)
    have hd : (("-" ++ Nat.repr (m + 1)) : String).data = '-' :: (Nat.repr (m + 1)).data := by
      simp
    rw [hd]
    simp only [decToInt?]
    rw [if_pos trivial, repr_data, decToNat_toDigits]
    show some (-((m + 1 : Nat) : Int)) = some (Int.negSucc m)
    rw [Int.negSucc_eq]
    push_cast
    ring_nf

theorem parseOptInt_cell (o : Option Int) : parseOptInt (csvCellOfOptInt o) = o := by
  cases o with
  | none => rfl
  | some n => exact parse_toString_int n

theorem parseOptStr_cell {o : Option String} (h : o ≠ some "") :
    parseOptStr (csvCellOfOptStr o) = o := by
  cases o with
  | none => rfl
  | some s =>
    have hs : s ≠ "" := fun he => h (by rw [he])
    simp [parseOptStr, csvCellOfOptStr, hs]

theorem parseCsvRow_csvRow (r : ProcessedRow) (hpc : r.price_currency ≠ some "")
    (hrc : r.regular_currency ≠ some "") : parseCsvRow (csvRow r) = some r := by
  obtain ⟨ts, sid, sname, pa, pc, ra, rc, cut⟩ := r
  simp only [csvRow, parseCsvRow]
  rw [parse_toString_int cut]
  simp only [parseOptInt_cell, parseOptStr_cell hpc, parseOptStr_cell hrc]

/-! ### C8 -/

/-- C8 is false as stated: a field that is defined but equal to the empty
string — here `price_currency = ""` — renders into the same empty CSV cell
as an absent field, so re-parsing cannot return it: the re-read record
differs from the original in a defined field. -/
theorem csv_round_trip_counterexample :
    parseCsvRow (csvRow
      { timestamp := "2020-01-01T00:00:00Z", shop_id := some 61, shop_name := "Steam",
        price_amount := some 10, price_currency := some "", regular_amount := some 20,
        regular_currency := some "USD", cut := 50 }) ≠
    some { timestamp := "2020-01-01T00:00:00Z", shop_id := some 61, shop_name := "Steam",
           price_amount := some 10, price_currency := some "", regular_amount := some 20,
           regular_currency := some "USD", cut := 50 } := by decide

/-- C8 (amended): exporting a sequence of processed price records to the
price-history CSV and re-parsing every data line returns exactly the
original records, provided no defined string-valued optional field is the
empty string (such a field renders identically to an absent one and is
re-read as absent); and absent fields always render as the empty cell,
never as the literal text "None" or "null". -/
theorem csv_round_trip :
    (∀ rows : List ProcessedRow,
      (∀ r ∈ rows, r.price_currency ≠ some "" ∧ r.regular_currency ≠ some "") →
      (savePriceHistoryRows rows).tail.map parseCsvRow = rows.map some)
    ∧ (∀ r : ProcessedRow, r.shop_id = none → r.price_amount = none →
        r.price_currency = none → r.regular_amount = none → r.regular_currency = none →
        csvRow r = [r.timestamp, "", r.shop_name, "", "", "", "", toString r.cut]) := by
  constructor
  · intro rows h
    unfold savePriceHistoryRows
    rw [List.tail_cons, List.map_map]
    exact List.map_congr_left fun r hr =>
      parseCsvRow_csvRow r (h r hr).1 (h r hr).2
  · intro r h1 h2 h3 h4 h5
    unfold csvRow
    rw [h1, h2, h3, h4, h5]
    rfl

/-- Witness for C8 (amended): a concrete fully defined row round-trips,
and a concrete row with all optional fields absent renders them all as
empty cells. -/
theorem csv_round_trip_witness :
    (savePriceHistoryRows
        [{ timestamp := "2020-01-01T00:00:00Z", shop_id := some 61, shop_name := "Steam",
           price_amount := some 10, price_currency := some "USD", regular_amount := some 20,
           regular_currency := some "USD", cut := 50 }]).tail.map parseCsvRow =
      [{ timestamp := "2020-01-01T00:00:00Z", shop_id := some 61, shop_name := "Steam",
         price_amount := some 10, price_currency := some "USD", regular_amount := some 20,
         regular_currency := some "USD", cut := 50 }].map some
    ∧ csvRow { timestamp := "t", shop_id := none, shop_name := "", price_amount := none,
               price_currency := none, regular_amount := none, regular_currency := none,
               cut := 0 } = ["t", "", "", "", "", "", "", toString (0 : Int)] :=
  ⟨csv_round_trip.1 _ (by intro r hr; exact ⟨by simp_all, by simp_all⟩),
   csv_round_trip.2 _ rfl rfl rfl rfl rfl⟩

/-! ## Summary report (src/main.py, `run_analysis` lines 175–195) -/

/-- The percent-change computation of `run_analysis`: `latest` is
`prices[0]`, `oldest` is `prices[-1]`; the variation is computed only when
`len(prices) > 1` and `old_price and new_price and old_price > 0` is
truthy (Python truthiness: `None` and `0` are falsy); the printed figure
is `abs(change)` with label "aumento" when `change > 0` and "queda"
otherwise. -/
def percentChange (prices : List ProcessedRow) : Option (ℚ × String) :=
  match prices.head?, prices.getLast? with
  | some latest, some oldest =>
    if prices.length ≤ 1 then none
    else
      match oldest.price_amount, latest.price_amount with
      | some o, some n =>
        if o = 0 then none
        else if n = 0 then none
        else if 0 < o then
          some (|((n : ℚ) - (o : ℚ)) / (o : ℚ) * 100|,
            if 0 < ((n : ℚ) - (o : ℚ)) / (o : ℚ) * 100 then "aumento" else "queda")
        else none
      | _, _ => none
  | _, _ => none

/-! ### C9 -/

/-- C9 is false as stated: the claim requires both endpoints to have a
positive amount for percent_change to be computed, but the code only
requires the oldest amount to be positive and the latest to be truthy
(non-zero): with latest = -80 and oldest = 100 the code still computes a
variation (180% "queda") even though the latest amount is not positive. -/
theorem percent_change_counterexample :
    percentChange
      [{ timestamp := "t1", shop_id := some 61, shop_name := "Steam",
         price_amount := some (-80), price_currency := some "USD",
         regular_amount := none, regular_currency := none, cut := 0 },
       { timestamp := "t0", shop_id := some 61, shop_name := "Steam",
         price_amount := some 100, price_currency := some "USD",
         regular_amount := none, regular_currency := none, cut := 0 }] =
      some (180, "queda")
    ∧ ¬ (0 < (-80 : Int)) := by
  constructor
  · show percentChange _ = _
    simp only [percentChange, List.head?_cons, List.getLast?_cons_cons,
      List.getLast?_singleton, List.length_cons, List.length_singleton]
    norm_num
  · decide

/-- C9 (amended): percent_change is produced exactly when the sequence has
at least two records, the amount of the oldest record is defined and
positive, and the amount of the latest record is defined and non-zero (not necessarily
positive); when produced, the reported magnitude is the absolute value of
the relative change of latest versus oldest, labelled "aumento" when the
change is positive and "queda" otherwise — in particular latest 80 versus
oldest 100 reports magnitude 20 with "queda". -/
theorem percent_change_spec :
    (∀ (prices : List ProcessedRow) (m : ℚ) (lbl : String),
      percentChange prices = some (m, lbl) →
      ∃ (latest oldest : ProcessedRow) (o n : Int), 2 ≤ prices.length ∧
        prices.head? = some latest ∧ prices.getLast? = some oldest ∧
        oldest.price_amount = some o ∧ 0 < o ∧
        latest.price_amount = some n ∧ n ≠ 0 ∧
        m = |((n : ℚ) - (o : ℚ)) / (o : ℚ) * 100| ∧
        lbl = (if 0 < ((n : ℚ) - (o : ℚ)) / (o : ℚ) * 100 then "aumento" else "queda"))
    ∧ (∀ (prices : List ProcessedRow) (latest oldest : ProcessedRow) (o n : Int),
        2 ≤ prices.length → prices.head? = some latest → prices.getLast? = some oldest →
        oldest.price_amount = some o → 0 < o →
        latest.price_amount = some n → n ≠ 0 →
        (percentChange prices).isSome = true) := by
  constructor
  · intro prices m lbl h
    unfold percentChange at h
    cases hh : prices.head? with
    | none => rw [hh] at h; exact absurd h (by simp)
    | some latest =>
      cases hl : prices.getLast? with
      | none => rw [hh, hl] at h; exact absurd h (by simp)
      | some oldest =>
        rw [hh, hl] at h
        simp only [] at h
        by_cases hlen : prices.length ≤ 1
        · rw [if_pos hlen] at h; exact absurd h (by simp)
        · rw [if_neg hlen] at h
          cases ho : oldest.price_amount with
          | none => rw [ho] at h; simp only [] at h; exact absurd h (by simp)
          | some o =>
            cases hn : latest.price_amount with
            | none => rw [ho, hn] at h; simp only [] at h; exact absurd h (by simp)
            | some n =>
              rw [ho, hn] at h
              simp only [] at h
              by_cases ho0 : o = 0
              · rw [if_pos ho0] at h; exact absurd h (by simp)
              · rw [if_neg ho0] at h
                by_cases hn0 : n = 0
                · rw [if_pos hn0] at h; exact absurd h (by simp)
                · rw [if_neg hn0] at h
                  by_cases hop : 0 < o
                  · rw [if_pos hop] at h
                    have hml := Option.some.inj h
                    exact ⟨latest, oldest, o, n, by omega, rfl, rfl, ho, hop, hn, hn0,
                      (congrArg Prod.fst hml).symm, (congrArg Prod.snd hml).symm⟩
                  · rw [if_neg hop] at h; exact absurd h (by simp)
  · intro prices latest oldest o n hlen hh hl ho hop hn hn0
    unfold percentChange
    rw [hh, hl]
    simp only []
    rw [ho, hn]
    simp only []
    rw [if_neg (by omega), if_neg (by omega : ¬ o = 0), if_neg hn0, if_pos hop]
    rfl

/-- Witness for C9 (amended): the instance named by the spec — latest 80, oldest
100 — yields exactly magnitude 20 labelled "queda", and its shape is
certified by both directions of the theorem. -/
theorem percent_change_spec_witness :
    (∃ (latest oldest : ProcessedRow) (o n : Int),
      2 ≤ ([{ timestamp := "t1", shop_id := some 61, shop_name := "Steam",
              price_amount := some 80, price_currency := some "USD",
              regular_amount := none, regular_currency := none, cut := 0 },
            { timestamp := "t0", shop_id := some 61, shop_name := "Steam",
              price_amount := some 100, price_currency := some "USD",
              regular_amount := none, regular_currency := none, cut := 0 }] :
              List ProcessedRow).length ∧
      ([{ timestamp := "t1", shop_id := some 61, shop_name := "Steam",
          price_amount := some 80, price_currency := some "USD",
          regular_amount := none, regular_currency := none, cut := 0 },
        { timestamp := "t0", shop_id := some 61, shop_name := "Steam",
          price_amount := some 100, price_currency := some "USD",
          regular_amount := none, regular_currency := none, cut := 0 }] :
          List ProcessedRow).head? = some latest ∧
      ([{ timestamp := "t1", shop_id := some 61, shop_name := "Steam",
          price_amount := some 80, price_currency := some "USD",
          regular_amount := none, regular_currency := none, cut := 0 },
        { timestamp := "t0", shop_id := some 61, shop_name := "Steam",
          price_amount := some 100, price_currency := some "USD",
          regular_amount := none, regular_currency := none, cut := 0 }] :
          List ProcessedRow).getLast? = some oldest ∧
      oldest.price_amount = some o ∧ 0 < o ∧
      latest.price_amount = some n ∧ n ≠ 0 ∧
      (20 : ℚ) = |((n : ℚ) - (o : ℚ)) / (o : ℚ) * 100| ∧
      "queda" = (if 0 < ((n : ℚ) - (o : ℚ)) / (o : ℚ) * 100 then "aumento" else "queda")) :=
  percent_change_spec.1 _ 20 "queda" (by
    simp only [percentChange, List.head?_cons, List.getLast?_cons_cons,
      List.getLast?_singleton, List.length_cons, List.length_singleton]
    norm_num)

/-! ## Economic-indicator lookups (src/api.py lines 187–231) -/

/-- One `EconomicDataPoint` of the served JSON: `{period, period_type,
indicators}`. -/
structure EconDataPoint where
  period : Int
  period_type : String
  indicators : List (String × Int)
deriving DecidableEq

/-- The `economic_data["data"]` mapping, country code → data points,
modelled as an association list; `lookupCountry` is the dict `.get`. -/
def lookupCountry (db : List (String × List EconDataPoint)) (k : String) :
    Option (List EconDataPoint) :=
  (db.find? fun p => p.1 == k).map Prod.snd

/-- The Python call `str.upper()` on the characters of the string (the `.upper()`
call of api.py lines 196 and 216). -/
def countryUpper (s : String) : String := ⟨s.data.map Char.toUpper⟩

/-- The body of `get_economic_indicators_by_country` (api.py lines
192–204): the stored mapping is probed at `country.upper()`; a missing key
or a falsy (empty) list raises HTTP 404, modelled as
`ApiError.notFound`. -/
def getEconByCountry (db : List (String × List EconDataPoint)) (country : String) :
    Except ApiError (List EconDataPoint) :=
  match lookupCountry db (countryUpper country) with
  | none => Except.error ApiError.notFound
  | some l => if l = [] then Except.error ApiError.notFound else Except.ok l

/-- The body of `get_economic_indicators_by_country_and_year` (api.py
lines 212–231): same country probe, then a linear scan for the first data
point whose `period` equals the year, else 404. -/
def getEconByCountryYear (db : List (String × List EconDataPoint)) (country : String)
    (year : Int) : Except ApiError EconDataPoint :=
  match lookupCountry db (countryUpper country) with
  | none => Except.error ApiError.notFound
  | some l =>
    if l = [] then Except.error ApiError.notFound
    else
      match l.find? fun p => p.period == year with
      | some p => Except.ok p
      | none => Except.error ApiError.notFound

/-! ### C10 -/

/-- C10: country lookups are case-insensitive — two queries with the same
uppercased form (such as "bra" and "BRA" against stored uppercase keys)
resolve identically, and a stored non-empty entry is returned as-is —
while a country code whose uppercased form is absent (or maps to an empty,
falsy list) yields an explicit NotFound error, never an ordinary empty
result; the per-year endpoint behaves the same way: case-insensitive on
the country, NotFound for an absent or empty-listed country, and NotFound
again when no stored data point carries the requested year. -/
theorem econ_lookup_case_insensitive_and_notfound :
    (∀ (db : List (String × List EconDataPoint)) (c₁ c₂ : String),
      countryUpper c₁ = countryUpper c₂ → getEconByCountry db c₁ = getEconByCountry db c₂)
    ∧ (∀ (db : List (String × List EconDataPoint)) (c : String) (l : List EconDataPoint),
        lookupCountry db (countryUpper c) = some l → l ≠ [] →
        getEconByCountry db c = Except.ok l)
    ∧ (∀ (db : List (String × List EconDataPoint)) (c : String),
        lookupCountry db (countryUpper c) = none →
        getEconByCountry db c = Except.error ApiError.notFound)
    ∧ (∀ (db : List (String × List EconDataPoint)) (c : String),
        lookupCountry db (countryUpper c) = some [] →
        getEconByCountry db c = Except.error ApiError.notFound)
    ∧ (∀ (db : List (String × List EconDataPoint)) (c₁ c₂ : String) (y : Int),
        countryUpper c₁ = countryUpper c₂ →
        getEconByCountryYear db c₁ y = getEconByCountryYear db c₂ y)
    ∧ (∀ (db : List (String × List EconDataPoint)) (c : String) (y : Int),
        lookupCountry db (countryUpper c) = none →
        getEconByCountryYear db c y = Except.error ApiError.notFound)
    ∧ (∀ (db : List (String × List EconDataPoint)) (c : String) (y : Int),
        lookupCountry db (countryUpper c) = some [] →
        getEconByCountryYear db c y = Except.error ApiError.notFound)
    ∧ (∀ (db : List (String × List EconDataPoint)) (c : String) (y : Int)
        (l : List EconDataPoint),
        lookupCountry db (countryUpper c) = some l → l ≠ [] →
        (l.find? fun p => p.period == y) = none →
        getEconByCountryYear db c y = Except.error ApiError.notFound) := by
  refine ⟨?_, ?_, ?_, ?_, ?_, ?_, ?_, ?_⟩
  · intro db c₁ c₂ h
    unfold getEconByCountry
    rw [h]
  · intro db c l hl hne
    unfold getEconByCountry
    rw [hl]
    simp only []
    rw [if_neg hne]
  · intro db c hl
    unfold getEconByCountry
    rw [hl]
  · intro db c hl
    unfold getEconByCountry
    rw [hl]
    simp only []
    rw [if_pos trivial]
  · intro db c₁ c₂ y h
    unfold getEconByCountryYear
    rw [h]
  · intro db c y hl
    unfold getEconByCountryYear
    rw [hl]
  · intro db c y hl
    unfold getEconByCountryYear
    rw [hl]
    simp only []
    rw [if_pos trivial]
  · intro db c y l hl hne hfind
    unfold getEconByCountryYear
    rw [hl]
    simp only []
    rw [if_neg hne, hfind]

/-- Witness for C10: against a store holding the uppercase key "BRA", the
lowercase query "bra" resolves to the same (returned) data as "BRA", the
absent code "XX" yields NotFound on both endpoints, and so does a year
("bra"/1999) that no stored data point carries. -/
theorem econ_lookup_case_insensitive_and_notfound_witness :
    getEconByCountry [("BRA", [⟨2020, "year", [("NGDPDPC", 100)]⟩])] "bra" =
      getEconByCountry [("BRA", [⟨2020, "year", [("NGDPDPC", 100)]⟩])] "BRA"
    ∧ getEconByCountry [("BRA", [⟨2020, "year", [("NGDPDPC", 100)]⟩])] "bra" =
      Except.ok [⟨2020, "year", [("NGDPDPC", 100)]⟩]
    ∧ getEconByCountry [("BRA", [⟨2020, "year", [("NGDPDPC", 100)]⟩])] "XX" =
      Except.error ApiError.notFound
    ∧ getEconByCountryYear [("BRA", [⟨2020, "year", [("NGDPDPC", 100)]⟩])] "bra" 2020 =
      getEconByCountryYear [("BRA", [⟨2020, "year", [("NGDPDPC", 100)]⟩])] "BRA" 2020
    ∧ getEconByCountryYear [("BRA", [⟨2020, "year", [("NGDPDPC", 100)]⟩])] "XX" 2020 =
      Except.error ApiError.notFound
    ∧ getEconByCountryYear [("BRA", [⟨2020, "year", [("NGDPDPC", 100)]⟩])] "bra" 1999 =
      Except.error ApiError.notFound :=
  ⟨econ_lookup_case_insensitive_and_notfound.1 _ "bra" "BRA" (by decide),
   econ_lookup_case_insensitive_and_notfound.2.1 _ "bra" _ (by decide) (by decide),
   econ_lookup_case_insensitive_and_notfound.2.2.1 _ "XX" (by decide),
   econ_lookup_case_insensitive_and_notfound.2.2.2.2.1 _ "bra" "BRA" 2020 (by decide),
   econ_lookup_case_insensitive_and_notfound.2.2.2.2.2.1 _ "XX" 2020 (by decide),
   econ_lookup_case_insensitive_and_notfound.2.2.2.2.2.2.2 _ "bra" 1999
     [⟨2020, "year", [("NGDPDPC", 100)]⟩] (by decide) (by decide) (by decide)⟩
